import Mathlib

/-!
# ApexSim — verification of the menu/loading flow and button hover effects

Shallow embedding of the two components of the ApexSim game layer:

* `UMainMenuWidget` (src/game/Project/Source/ApexSim/MainMenuWidget.cpp):
  the hover effect manager — per-button baseline style snapshots, hover
  enter/leave style toggling, optional hover sound.
* `UApexSimGameInstance` (src/game-ue_57/Project/Source/ApexSim/
  ApexSimGameInstance.cpp): the startup flow controller — loading screen,
  one-shot timer, transition to the main menu.

Scalar values (`float` in the source) are modelled as exact rationals `ℚ`;
the spec fixes the numeric semantics as plain real-number arithmetic.
Engine objects (`UButton*`, `USoundBase*`, widget instances, widget classes)
are modelled by their identity: a `Nat` handle, with `Option Nat` standing
for a possibly-null pointer.
-/

namespace ApexSim

/-- Embedding of `FVector2D`: a 2-component vector of scalars. -/
structure FVector2D where
  x : ℚ
  y : ℚ
deriving DecidableEq, Repr

/-- Embedding of `FWidgetTransform`: the render transform of a widget
(translation, scale, shear, rotation angle). -/
structure FWidgetTransform where
  Translation : FVector2D
  Scale : FVector2D
  Shear : FVector2D
  Angle : ℚ
deriving DecidableEq, Repr

/-- Embedding of `FLinearColor`: an RGBA color with unclamped scalar channels. -/
structure FLinearColor where
  R : ℚ
  G : ℚ
  B : ℚ
  A : ℚ
deriving DecidableEq, Repr

/-- Embedding of `FLinearColor::operator*`: componentwise multiplication of two colors,
every channel (alpha included) multiplied independently, no clamping. -/
def FLinearColor.mul (c t : FLinearColor) : FLinearColor :=
  ⟨c.R * t.R, c.G * t.G, c.B * t.B, c.A * t.A⟩

/-- The host-side visual state of a button: its current render transform
(`GetRenderTransform`/`SetRenderTransform`) and its current color
(`GetColorAndOpacity`/`SetColorAndOpacity`). -/
structure ButtonStyle where
  RenderTransform : FWidgetTransform
  ColorAndOpacity : FLinearColor
deriving DecidableEq, Repr

/-- Embedding of `TMap::Find`: look up the value stored for a key, `none` when absent. -/
def tmapFind {β : Type} (m : List (Nat × β)) (k : Nat) : Option β :=
  match m with
  | [] => none
  | (k', v') :: rest => if k' = k then some v' else tmapFind rest k

/-- Embedding of `TMap::Add`: insert a key/value pair; when the key is already present its
value is overwritten (Unreal `TMap::Add` replaces an existing entry). -/
def tmapAdd {β : Type} (m : List (Nat × β)) (k : Nat) (v : β) : List (Nat × β) :=
  match m with
  | [] => [(k, v)]
  | (k', v') :: rest => if k' = k then (k, v) :: rest else (k', v') :: tmapAdd rest k v

/-- The key set of a `TMap`, in storage order. -/
def tmapKeys {β : Type} (m : List (Nat × β)) : List Nat :=
  m.map Prod.fst

/-- State of a `UMainMenuWidget` together with the host-side style state of
the buttons it can touch.  Configuration fields mirror the `UPROPERTY`
members of `UMainMenuWidget` (MainMenuWidget.h); `OriginalTransforms` and
`OriginalColors` are the two private snapshot `TMap`s; `hoverBindings`
records the `AddDynamic` subscriptions made so far; `styles` is the
host-side current style of every button handle. -/
structure WidgetState where
  HoverScaleMultiplier : ℚ
  HoverColorTint : FLinearColor
  bPlaySoundOnHover : Bool
  HoverSound : Option Nat
  PlayButton : Option Nat
  SettingsButton : Option Nat
  ContentButton : Option Nat
  QuitButton : Option Nat
  OriginalTransforms : List (Nat × FWidgetTransform)
  OriginalColors : List (Nat × FLinearColor)
  hoverBindings : List Nat
  styles : Nat → ButtonStyle

/-- Overwrite the host-side style of one button handle. -/
def setStyle (f : Nat → ButtonStyle) (b : Nat) (g : ButtonStyle → ButtonStyle) :
    Nat → ButtonStyle :=
  fun b' => if b' = b then g (f b) else f b'

/-- One bind step of `UMainMenuWidget::BindButtonHoverEffects` for a single
button slot: if the button reference is non-null, `Add` its current render
transform and current color to the snapshot maps and subscribe the hover
handlers (`AddDynamic`).  A null reference is skipped silently. -/
def RegisterButton (w : WidgetState) (Button : Option Nat) : WidgetState :=
  match Button with
  | none => w
  | some b =>
    { w with
      OriginalTransforms := tmapAdd w.OriginalTransforms b (w.styles b).RenderTransform
      OriginalColors := tmapAdd w.OriginalColors b (w.styles b).ColorAndOpacity
      hoverBindings := w.hoverBindings ++ [b] }

/-- Embedding of `UMainMenuWidget::BindButtonHoverEffects`: register the four button
slots in source order (Play, Settings, Content, Quit). -/
def BindButtonHoverEffects (w : WidgetState) : WidgetState :=
  let w1 := RegisterButton w w.PlayButton
  let w2 := RegisterButton w1 w1.SettingsButton
  let w3 := RegisterButton w2 w2.ContentButton
  RegisterButton w3 w3.QuitButton

/-- Embedding of `UMainMenuWidget::ApplyHoverEffect`: null button → return; unknown
button (no stored transform) → return; otherwise set the button's render
transform to the stored snapshot transform with its `Scale` field replaced
by `(HoverScaleMultiplier, HoverScaleMultiplier)`, then, when a snapshot
color is stored, set the button's color to snapshot color × `HoverColorTint`. -/
def ApplyHoverEffect (w : WidgetState) (Button : Option Nat) : WidgetState :=
  match Button with
  | none => w
  | some b =>
    match tmapFind w.OriginalTransforms b with
    | none => w
    | some OriginalTransform =>
      let HoverTransform : FWidgetTransform :=
        { OriginalTransform with
          Scale := ⟨w.HoverScaleMultiplier, w.HoverScaleMultiplier⟩ }
      let w1 : WidgetState :=
        { w with styles := (setStyle w.styles b
            (fun s => { s with RenderTransform := HoverTransform })) }
      match tmapFind w1.OriginalColors b with
      | none => w1
      | some OriginalColor =>
        let NewColor := FLinearColor.mul OriginalColor w1.HoverColorTint
        { w1 with styles := (setStyle w1.styles b
            (fun s => { s with ColorAndOpacity := NewColor })) }

/-- Embedding of `UMainMenuWidget::RemoveHoverEffect`: null button → return; otherwise
restore the stored snapshot transform (when present) and the stored
snapshot color (when present) to the button. -/
def RemoveHoverEffect (w : WidgetState) (Button : Option Nat) : WidgetState :=
  match Button with
  | none => w
  | some b =>
    let w1 : WidgetState :=
      match tmapFind w.OriginalTransforms b with
      | none => w
      | some OriginalTransform =>
        { w with styles := (setStyle w.styles b
            (fun s => { s with RenderTransform := OriginalTransform })) }
    match tmapFind w1.OriginalColors b with
    | none => w1
    | some OriginalColor =>
      { w1 with styles := (setStyle w1.styles b
          (fun s => { s with ColorAndOpacity := OriginalColor })) }

/-- Embedding of `UMainMenuWidget::OnPlayButtonHovered`: when `bPlaySoundOnHover` is set
and `HoverSound` is non-null, play the sound (`PlaySound2D`, fire and
forget), then apply the hover effect to `PlayButton`.  Returns the new
state together with the list of sound handles played by this call. -/
def OnPlayButtonHovered (w : WidgetState) : WidgetState × List Nat :=
  let played : List Nat :=
    if w.bPlaySoundOnHover then
      match w.HoverSound with
      | some s => [s]
      | none => []
    else []
  (ApplyHoverEffect w w.PlayButton, played)

/-- Embedding of `UMainMenuWidget::OnPlayButtonUnhovered`. -/
def OnPlayButtonUnhovered (w : WidgetState) : WidgetState :=
  RemoveHoverEffect w w.PlayButton

/-! ## Startup flow controller (`UApexSimGameInstance`) -/

/-- The callback a scheduled timer invokes.  The source schedules exactly one
kind of callback: `&UApexSimGameInstance::ShowMainMenu`. -/
inductive TimerCallback where
  | showMainMenu
deriving DecidableEq, Repr

/-- One timer registration as passed to `FTimerManager::SetTimer`:
the member callback, the rate in seconds, and the `bLoop` flag. -/
structure TimerSpec where
  callback : TimerCallback
  rate : ℚ
  loop : Bool
deriving DecidableEq, Repr

/-- Host delay-scheduler semantics, modelled from the engine contract the
spec assumes of the collaborator (`after(duration, callback)`; a timer set
with `bLoop = false` is single-shot): a non-looping timer of rate `r` fires
exactly at elapsed time `r`; a looping timer fires at every positive
multiple of `r`. -/
def TimerSpec.fires (t : TimerSpec) (q : ℚ) : Prop :=
  if t.loop then ∃ n : ℕ, 1 ≤ n ∧ q = (n : ℚ) * t.rate else q = t.rate

/-- Static configuration of a `UApexSimGameInstance` run: the two widget
class references, the loading screen duration, whether the host
`CreateWidget` call succeeds for a given class token, and whether a player
controller exists (`GetPlayerController` non-null). -/
structure GIConfig where
  LoadingScreenWidgetClass : Option Nat
  MainMenuWidgetClass : Option Nat
  LoadingScreenDuration : ℚ
  createOk : Nat → Bool
  hasPlayerController : Bool

/-- State of a `UApexSimGameInstance` together with the host viewport and
timer manager it drives.  `viewport` lists the widgets currently added to
the viewport as (instance id, class token) pairs in add order; `timers`
lists the registrations made through `SetTimer`; `nextWidgetId` numbers the
fresh instances `CreateWidget` returns. -/
structure GameInstanceState where
  cfg : GIConfig
  CurrentWidget : Option Nat
  nextWidgetId : Nat
  viewport : List (Nat × Nat)
  timers : List TimerSpec
  inputModeUIOnly : Bool
  bShowMouseCursor : Bool

/-- The state of a freshly constructed game instance before `Init` runs:
no current widget, empty viewport, no timers
(`UApexSimGameInstance::UApexSimGameInstance` only sets the duration,
which here is part of `cfg`). -/
def mkGameInstance (cfg : GIConfig) : GameInstanceState :=
  { cfg := cfg
    CurrentWidget := none
    nextWidgetId := 0
    viewport := []
    timers := []
    inputModeUIOnly := false
    bShowMouseCursor := false }

/-- Embedding of `UApexSimGameInstance::Init`: when a loading screen widget class is
configured, create the widget; when creation succeeds, add it to the
viewport at z-order 0, switch input to UI-only with the cursor hidden
(when a player controller exists), and set a timer invoking `ShowMainMenu`
after `LoadingScreenDuration` seconds with `bLoop = false`. -/
def GameInstanceInit (g : GameInstanceState) : GameInstanceState :=
  match g.cfg.LoadingScreenWidgetClass with
  | none => g
  | some cls =>
    if g.cfg.createOk cls then
      let wid := g.nextWidgetId
      let g1 : GameInstanceState :=
        { g with
          CurrentWidget := some wid
          nextWidgetId := g.nextWidgetId + 1
          viewport := g.viewport ++ [(wid, cls)] }
      let g2 : GameInstanceState :=
        if g1.cfg.hasPlayerController then
          { g1 with inputModeUIOnly := true, bShowMouseCursor := false }
        else g1
      { g2 with
        timers := g2.timers ++
          [⟨TimerCallback.showMainMenu, g2.cfg.LoadingScreenDuration, false⟩] }
    else { g with CurrentWidget := none }

/-- Embedding of `UApexSimGameInstance::ShowMainMenu`: if a current widget exists, remove
it from the viewport (`RemoveFromParent`) and null the reference; then, when
a main menu widget class is configured and creation succeeds, add the fresh
main menu widget to the viewport at z-order 0 and switch input to UI-only
with the cursor visible (when a player controller exists). -/
def ShowMainMenu (g : GameInstanceState) : GameInstanceState :=
  let g1 : GameInstanceState :=
    match g.CurrentWidget with
    | some w =>
      { g with
        viewport := g.viewport.filter (fun p => p.1 ≠ w)
        CurrentWidget := none }
    | none => g
  match g1.cfg.MainMenuWidgetClass with
  | none => g1
  | some cls =>
    if g1.cfg.createOk cls then
      let wid := g1.nextWidgetId
      let g2 : GameInstanceState :=
        { g1 with
          CurrentWidget := some wid
          nextWidgetId := g1.nextWidgetId + 1
          viewport := g1.viewport ++ [(wid, cls)] }
      if g2.cfg.hasPlayerController then
        { g2 with inputModeUIOnly := true, bShowMouseCursor := true }
      else g2
    else { g1 with CurrentWidget := none }

/-- Dispatch of a fired timer to its bound member callback. -/
def fireTimer (g : GameInstanceState) (t : TimerSpec) : GameInstanceState :=
  match t.callback with
  | TimerCallback.showMainMenu => ShowMainMenu g

/-! ## Helper lemmas about the embedded container and style primitives -/

theorem tmapFind_tmapAdd_self {β : Type} (m : List (Nat × β)) (k : Nat) (v : β) :
    tmapFind (tmapAdd m k v) k = some v := by
  induction m with
  | nil => simp [tmapAdd, tmapFind]
  | cons p rest ih =>
    obtain ⟨k', v'⟩ := p
    by_cases h : k' = k
    · subst h
      simp [tmapAdd, tmapFind]
    · simp [tmapAdd, tmapFind, h, ih]

theorem tmapKeys_tmapAdd {β : Type} (m : List (Nat × β)) (k : Nat) (v : β) :
    tmapKeys (tmapAdd m k v) =
      if k ∈ tmapKeys m then tmapKeys m else tmapKeys m ++ [k] := by
  induction m with
  | nil => simp [tmapAdd, tmapKeys]
  | cons p rest ih =>
    obtain ⟨k', v'⟩ := p
    by_cases h : k' = k
    · subst h
      simp [tmapAdd, tmapKeys]
    · have h' : ¬ k = k' := fun hk => h hk.symm
      have ih' : List.map Prod.fst (tmapAdd rest k v) =
          if k ∈ List.map Prod.fst rest then List.map Prod.fst rest
          else List.map Prod.fst rest ++ [k] := ih
      by_cases hmem : k ∈ List.map Prod.fst rest
      · simp [tmapAdd, tmapKeys, h, h', ih', hmem]
      · simp [tmapAdd, tmapKeys, h, h', ih', hmem]

theorem setStyle_self (f : Nat → ButtonStyle) (b : Nat) (g : ButtonStyle → ButtonStyle) :
    setStyle f b g b = g (f b) := by
  simp [setStyle]

theorem setStyle_setStyle (f : Nat → ButtonStyle) (b : Nat)
    (g1 g2 : ButtonStyle → ButtonStyle) :
    setStyle (setStyle f b g1) b g2 = setStyle f b (fun s => g2 (g1 s)) := by
  funext b'
  by_cases h : b' = b <;> simp [setStyle, h]

/-! ## Field preservation: hover operations never touch the snapshot maps
or the configuration, only the host-side styles -/

theorem applyHover_OriginalTransforms (w : WidgetState) (e : Option Nat) :
    (ApplyHoverEffect w e).OriginalTransforms = w.OriginalTransforms := by
  cases e with
  | none => rfl
  | some b =>
    cases hT : tmapFind w.OriginalTransforms b with
    | none => simp [ApplyHoverEffect, hT]
    | some T =>
      cases hC : tmapFind w.OriginalColors b with
      | none => simp [ApplyHoverEffect, hT, hC]
      | some C => simp [ApplyHoverEffect, hT, hC]

theorem applyHover_OriginalColors (w : WidgetState) (e : Option Nat) :
    (ApplyHoverEffect w e).OriginalColors = w.OriginalColors := by
  cases e with
  | none => rfl
  | some b =>
    cases hT : tmapFind w.OriginalTransforms b with
    | none => simp [ApplyHoverEffect, hT]
    | some T =>
      cases hC : tmapFind w.OriginalColors b with
      | none => simp [ApplyHoverEffect, hT, hC]
      | some C => simp [ApplyHoverEffect, hT, hC]

theorem removeHover_OriginalTransforms (w : WidgetState) (e : Option Nat) :
    (RemoveHoverEffect w e).OriginalTransforms = w.OriginalTransforms := by
  cases e with
  | none => rfl
  | some b =>
    cases hT : tmapFind w.OriginalTransforms b with
    | none =>
      cases hC : tmapFind w.OriginalColors b with
      | none => simp [RemoveHoverEffect, hT, hC]
      | some C => simp [RemoveHoverEffect, hT, hC]
    | some T =>
      cases hC : tmapFind w.OriginalColors b with
      | none => simp [RemoveHoverEffect, hT, hC]
      | some C => simp [RemoveHoverEffect, hT, hC]

theorem removeHover_OriginalColors (w : WidgetState) (e : Option Nat) :
    (RemoveHoverEffect w e).OriginalColors = w.OriginalColors := by
  cases e with
  | none => rfl
  | some b =>
    cases hT : tmapFind w.OriginalTransforms b with
    | none =>
      cases hC : tmapFind w.OriginalColors b with
      | none => simp [RemoveHoverEffect, hT, hC]
      | some C => simp [RemoveHoverEffect, hT, hC]
    | some T =>
      cases hC : tmapFind w.OriginalColors b with
      | none => simp [RemoveHoverEffect, hT, hC]
      | some C => simp [RemoveHoverEffect, hT, hC]

/-! ## Closed forms of the hover operations on a fully registered element -/

theorem applyHover_closed_form (w : WidgetState) (b : Nat)
    (T : FWidgetTransform) (C : FLinearColor)
    (hT : tmapFind w.OriginalTransforms b = some T)
    (hC : tmapFind w.OriginalColors b = some C) :
    ApplyHoverEffect w (some b) =
      { w with styles := (setStyle w.styles b (fun _ =>
          ⟨{ T with Scale := ⟨w.HoverScaleMultiplier, w.HoverScaleMultiplier⟩ },
           FLinearColor.mul C w.HoverColorTint⟩)) } := by
  simp only [ApplyHoverEffect, hT, hC]
  rw [setStyle_setStyle]

theorem removeHover_closed_form (w : WidgetState) (b : Nat)
    (T : FWidgetTransform) (C : FLinearColor)
    (hT : tmapFind w.OriginalTransforms b = some T)
    (hC : tmapFind w.OriginalColors b = some C) :
    RemoveHoverEffect w (some b) =
      { w with styles := (setStyle w.styles b (fun _ => ⟨T, C⟩)) } := by
  simp only [RemoveHoverEffect, hT, hC]
  rw [setStyle_setStyle]

/-! ## Concrete sample widgets, using the default configuration values of
`MainMenuWidget.h` (`HoverScaleMultiplier = 1.05`,
`HoverColorTint = (1.2, 1.2, 1.2, 1.0)`) -/

/-- A baseline render transform with the default unit scale. -/
def baseTransform : FWidgetTransform := ⟨⟨0, 0⟩, ⟨1, 1⟩, ⟨0, 0⟩, 0⟩

/-- The baseline color `(0.5, 0.5, 0.5, 1.0)` of the spec's worked example. -/
def baseColor : FLinearColor := ⟨1/2, 1/2, 1/2, 1⟩

/-- A widget with the source's default hover configuration, one bound
button slot (handle 0), and every button currently in the baseline style. -/
def sampleWidget : WidgetState :=
  { HoverScaleMultiplier := 21/20
    HoverColorTint := ⟨6/5, 6/5, 6/5, 1⟩
    bPlaySoundOnHover := true
    HoverSound := some 7
    PlayButton := some 0
    SettingsButton := none
    ContentButton := none
    QuitButton := none
    OriginalTransforms := []
    OriginalColors := []
    hoverBindings := []
    styles := fun _ => ⟨baseTransform, baseColor⟩ }

/-- The state of `sampleWidget` after registering button 0. -/
def registeredWidget : WidgetState := RegisterButton sampleWidget (some 0)

/-- The state of `registeredWidget` after a hover-enter on button 0. -/
def hoveredWidget : WidgetState := ApplyHoverEffect registeredWidget (some 0)

/-- The state of `hoveredWidget` after a second registration of button 0. -/
def rebindWidget : WidgetState := RegisterButton hoveredWidget (some 0)

/-- A baseline render transform with the non-unit scale `(2, 1)`. -/
def cexTransform : FWidgetTransform := ⟨⟨0, 0⟩, ⟨2, 1⟩, ⟨0, 0⟩, 0⟩

/-- A widget whose button 0 is registered while its baseline scale is
`(2, 1)` rather than the unit scale. -/
def cexWidget : WidgetState :=
  RegisterButton { sampleWidget with styles := fun _ => ⟨cexTransform, baseColor⟩ } (some 0)

/-! ## Claims -/

/-- Claim C1 (amended): for every registered element, `OnHoverEnter` sets
the element's transform scale to `(HoverScaleMultiplier,
HoverScaleMultiplier)`, the same multiplier in both axes, regardless of the
baseline scale stored in the snapshot; this coincides with baseline scale ×
multiplier exactly when the baseline scale is `(1, 1)`. -/
theorem applyHover_scale_eq_multiplier_pair (w : WidgetState) (b : Nat)
    (T : FWidgetTransform) (hT : tmapFind w.OriginalTransforms b = some T) :
    ((ApplyHoverEffect w (some b)).styles b).RenderTransform.Scale =
      ⟨w.HoverScaleMultiplier, w.HoverScaleMultiplier⟩ := by
  cases hC : tmapFind w.OriginalColors b with
  | none => simp [ApplyHoverEffect, hT, hC, setStyle]
  | some C => simp [ApplyHoverEffect, hT, hC, setStyle]

/-- Claim C1 witness: on the concrete registered widget, the hovered scale
is the multiplier pair. -/
theorem applyHover_scale_eq_multiplier_pair_witness :
    ((ApplyHoverEffect registeredWidget (some 0)).styles 0).RenderTransform.Scale =
      ⟨registeredWidget.HoverScaleMultiplier, registeredWidget.HoverScaleMultiplier⟩ :=
  applyHover_scale_eq_multiplier_pair registeredWidget 0 baseTransform rfl

/-- Claim C1 counterexample: with `HoverScaleMultiplier = 21/20` and a
registered baseline scale `(2, 1)`, the hovered scale is not
`(2 × 21/20, 1 × 21/20)` — the code discards the baseline scale. -/
theorem hover_scale_not_baseline_multiplied :
    tmapFind cexWidget.OriginalTransforms 0 = some cexTransform ∧
    cexTransform.Scale = ⟨2, 1⟩ ∧
    ((ApplyHoverEffect cexWidget (some 0)).styles 0).RenderTransform.Scale ≠
      ⟨2 * ((21:ℚ)/20), 1 * ((21:ℚ)/20)⟩ := by
  refine ⟨rfl, rfl, ?_⟩
  have heval : ((ApplyHoverEffect cexWidget (some 0)).styles 0).RenderTransform.Scale =
      ⟨(21:ℚ)/20, (21:ℚ)/20⟩ := by
    simp [cexWidget, sampleWidget, ApplyHoverEffect, RegisterButton, tmapFind, tmapAdd,
      setStyle]
  rw [heval]
  simp only [ne_eq, FVector2D.mk.injEq, not_and]
  intro hx
  norm_num at hx

/-- Claim C2: a second `Register` of an already-registered element
overwrites the stored snapshot with the element's current (here: hovered)
style, because `TMap::Add` replaces an existing entry — the stored baseline
no longer equals the first captured snapshot. -/
theorem register_twice_overwrites_snapshot :
    tmapFind registeredWidget.OriginalTransforms 0 = some baseTransform ∧
    tmapFind rebindWidget.OriginalTransforms 0 =
      some { baseTransform with Scale := ⟨21/20, 21/20⟩ } ∧
    tmapFind rebindWidget.OriginalTransforms 0 ≠ some baseTransform := by
  refine ⟨rfl, rfl, ?_⟩
  have heval : tmapFind rebindWidget.OriginalTransforms 0 =
      some { baseTransform with Scale := ⟨21/20, 21/20⟩ } := rfl
  rw [heval]
  simp only [ne_eq, Option.some.injEq, baseTransform, FWidgetTransform.mk.injEq,
    FVector2D.mk.injEq, not_and]
  intro h1 h2
  norm_num at h2

/-- Claim C3: register, hover-enter, hover-leave is a round trip — the
element's final transform and color equal its style at the moment of
registration. -/
theorem register_hover_unhover_roundtrip (w : WidgetState) (b : Nat) :
    (RemoveHoverEffect (ApplyHoverEffect (RegisterButton w (some b)) (some b))
        (some b)).styles b = w.styles b := by
  have hT1 : tmapFind (RegisterButton w (some b)).OriginalTransforms b =
      some (w.styles b).RenderTransform := by
    simp [RegisterButton, tmapFind_tmapAdd_self]
  have hC1 : tmapFind (RegisterButton w (some b)).OriginalColors b =
      some (w.styles b).ColorAndOpacity := by
    simp [RegisterButton, tmapFind_tmapAdd_self]
  have hT2 : tmapFind (ApplyHoverEffect (RegisterButton w (some b))
      (some b)).OriginalTransforms b = some (w.styles b).RenderTransform := by
    rw [applyHover_OriginalTransforms]
    exact hT1
  have hC2 : tmapFind (ApplyHoverEffect (RegisterButton w (some b))
      (some b)).OriginalColors b = some (w.styles b).ColorAndOpacity := by
    rw [applyHover_OriginalColors]
    exact hC1
  rw [removeHover_closed_form _ b _ _ hT2 hC2]
  simp [setStyle]

/-- Claim C6: hover-enter and hover-leave on a null or never-registered
element perform no mutation at all — the state is returned unchanged. -/
theorem hover_ops_noop_on_unregistered (w : WidgetState) (e : Option Nat)
    (h : e = none ∨ ∃ b, e = some b ∧ tmapFind w.OriginalTransforms b = none ∧
      tmapFind w.OriginalColors b = none) :
    ApplyHoverEffect w e = w ∧ RemoveHoverEffect w e = w := by
  rcases h with h | ⟨b, he, hT, hC⟩
  · subst h
    exact ⟨rfl, rfl⟩
  · subst he
    constructor
    · simp [ApplyHoverEffect, hT]
    · simp [RemoveHoverEffect, hT, hC]

/-- Claim C6 witness: element 5 was never registered on the sample widget,
so both hover operations leave the state unchanged. -/
theorem hover_ops_noop_on_unregistered_witness :
    ApplyHoverEffect sampleWidget (some 5) = sampleWidget ∧
    RemoveHoverEffect sampleWidget (some 5) = sampleWidget :=
  hover_ops_noop_on_unregistered sampleWidget (some 5) (Or.inr ⟨5, rfl, rfl, rfl⟩)

/-- Claim C7: on hover-enter for a registered element, every channel of the
applied color, alpha included, is the corresponding baseline channel
multiplied by the corresponding channel of `HoverColorTint`, with no
clamping. -/
theorem applyHover_color_componentwise (w : WidgetState) (b : Nat)
    (T : FWidgetTransform) (C : FLinearColor)
    (hT : tmapFind w.OriginalTransforms b = some T)
    (hC : tmapFind w.OriginalColors b = some C) :
    ((ApplyHoverEffect w (some b)).styles b).ColorAndOpacity =
      ⟨C.R * w.HoverColorTint.R, C.G * w.HoverColorTint.G,
       C.B * w.HoverColorTint.B, C.A * w.HoverColorTint.A⟩ := by
  rw [applyHover_closed_form w b T C hT hC]
  simp [setStyle, FLinearColor.mul]

/-- Claim C7 witness: the spec's worked example — tint `(1.2, 1.2, 1.2, 1)`
on baseline color `(0.5, 0.5, 0.5, 1)` yields `(0.6, 0.6, 0.6, 1)`. -/
theorem applyHover_color_componentwise_witness :
    ((ApplyHoverEffect registeredWidget (some 0)).styles 0).ColorAndOpacity =
      ⟨(3:ℚ)/5, 3/5, 3/5, 1⟩ := by
  rw [applyHover_color_componentwise registeredWidget 0 baseTransform baseColor rfl rfl]
  norm_num [registeredWidget, sampleWidget, RegisterButton, baseColor,
    FLinearColor.mk.injEq]

/-- Claim C8: the hover sound is played iff `bPlaySoundOnHover` is set and a
`HoverSound` handle is configured; either way the hover effect itself is
still applied. -/
theorem hover_sound_iff_configured (w : WidgetState) :
    ((OnPlayButtonHovered w).2 ≠ [] ↔
      (w.bPlaySoundOnHover = true ∧ w.HoverSound.isSome = true)) ∧
    (OnPlayButtonHovered w).1 = ApplyHoverEffect w w.PlayButton := by
  refine ⟨?_, rfl⟩
  cases hs : w.HoverSound with
  | none => cases hb : w.bPlaySoundOnHover <;> simp [OnPlayButtonHovered, hs, hb]
  | some s => cases hb : w.bPlaySoundOnHover <;> simp [OnPlayButtonHovered, hs, hb]

/-- The invariant that the transform-snapshot map and the color-snapshot map
hold exactly the same keys. -/
def snapshotKeysAligned (w : WidgetState) : Prop :=
  tmapKeys w.OriginalTransforms = tmapKeys w.OriginalColors

theorem snapshotKeysAligned_register (w : WidgetState) (e : Option Nat)
    (h : snapshotKeysAligned w) : snapshotKeysAligned (RegisterButton w e) := by
  cases e with
  | none => exact h
  | some b =>
    unfold snapshotKeysAligned at h ⊢
    simp [RegisterButton, tmapKeys_tmapAdd, h]

/-- Claim C9: every operation — single registration, the full
`BindButtonHoverEffects` pass, hover enter, hover leave — preserves the
invariant that an element has a stored baseline transform iff it has a
stored baseline color (the two snapshot maps keep identical key sets). -/
theorem snapshot_maps_keys_aligned (w : WidgetState) (e : Option Nat)
    (h : snapshotKeysAligned w) :
    snapshotKeysAligned (RegisterButton w e) ∧
    snapshotKeysAligned (BindButtonHoverEffects w) ∧
    snapshotKeysAligned (ApplyHoverEffect w e) ∧
    snapshotKeysAligned (RemoveHoverEffect w e) := by
  refine ⟨snapshotKeysAligned_register w e h, ?_, ?_, ?_⟩
  · exact snapshotKeysAligned_register _ _ (snapshotKeysAligned_register _ _
      (snapshotKeysAligned_register _ _ (snapshotKeysAligned_register _ _ h)))
  · unfold snapshotKeysAligned
    rw [applyHover_OriginalTransforms, applyHover_OriginalColors]
    exact h
  · unfold snapshotKeysAligned
    rw [removeHover_OriginalTransforms, removeHover_OriginalColors]
    exact h

/-- Claim C9 witness: the invariant holds on the sample widget (both maps
empty) and is preserved by each operation. -/
theorem snapshot_maps_keys_aligned_witness :
    snapshotKeysAligned (RegisterButton sampleWidget (some 0)) ∧
    snapshotKeysAligned (BindButtonHoverEffects sampleWidget) ∧
    snapshotKeysAligned (ApplyHoverEffect sampleWidget (some 0)) ∧
    snapshotKeysAligned (RemoveHoverEffect sampleWidget (some 0)) :=
  snapshot_maps_keys_aligned sampleWidget (some 0) rfl

/-- Overwriting the styles field with the value it already holds is the
identity (structure eta). -/
theorem widget_styles_overwrite (w : WidgetState) (s : Nat → ButtonStyle)
    (h : s = w.styles) : { w with styles := s } = w := by
  subst h
  rfl

/-- Closed form of `ApplyHoverEffect` when a snapshot transform is stored
but no snapshot color is. -/
theorem applyHover_closed_form_noColor (w : WidgetState) (b : Nat)
    (T : FWidgetTransform)
    (hT : tmapFind w.OriginalTransforms b = some T)
    (hC : tmapFind w.OriginalColors b = none) :
    ApplyHoverEffect w (some b) =
      { w with styles := (setStyle w.styles b (fun s =>
          { s with RenderTransform :=
            { T with Scale := ⟨w.HoverScaleMultiplier, w.HoverScaleMultiplier⟩ } })) } := by
  simp only [ApplyHoverEffect, hT, hC]

/-- Claim C10: hover-enter is idempotent — applying it twice yields exactly
the state of applying it once, because the derived style is computed from
the stored snapshot, not from the element's current style. -/
theorem applyHover_idempotent (w : WidgetState) (e : Option Nat) :
    ApplyHoverEffect (ApplyHoverEffect w e) e = ApplyHoverEffect w e := by
  cases e with
  | none => rfl
  | some b =>
    cases hT : tmapFind w.OriginalTransforms b with
    | none =>
      have hid : ApplyHoverEffect w (some b) = w := by
        simp [ApplyHoverEffect, hT]
      rw [hid]
      exact hid
    | some T =>
      have hT' : tmapFind (ApplyHoverEffect w (some b)).OriginalTransforms b = some T := by
        rw [applyHover_OriginalTransforms]
        exact hT
      cases hC : tmapFind w.OriginalColors b with
      | none =>
        have hC' : tmapFind (ApplyHoverEffect w (some b)).OriginalColors b = none := by
          rw [applyHover_OriginalColors]
          exact hC
        have h1 := applyHover_closed_form_noColor w b T hT hC
        have h2 := applyHover_closed_form_noColor (ApplyHoverEffect w (some b)) b T hT' hC'
        rw [h2, h1]
        apply widget_styles_overwrite
        funext b'
        by_cases hb : b' = b <;> simp [setStyle, hb]
      | some C =>
        have hC' : tmapFind (ApplyHoverEffect w (some b)).OriginalColors b = some C := by
          rw [applyHover_OriginalColors]
          exact hC
        have h1 := applyHover_closed_form w b T C hT hC
        have h2 := applyHover_closed_form (ApplyHoverEffect w (some b)) b T C hT' hC'
        rw [h2, h1]
        apply widget_styles_overwrite
        funext b'
        by_cases hb : b' = b <;> simp [setStyle, hb]

/-- A sample startup configuration: loading class 1, main-menu class 2,
2-second loading duration, widget creation always succeeding, a player
controller present. -/
def c4cfg : GIConfig := ⟨some 1, some 2, 2, fun _ => true, true⟩

/-- Claim C4: a run started via `Init` with a loading screen configured and
widget creation succeeding schedules exactly one timer — callback
`ShowMainMenu`, rate `LoadingScreenDuration`, `bLoop = false` — and under
the host scheduler semantics a non-looping timer fires exactly at elapsed
time `LoadingScreenDuration` and at no other time, hence exactly once. -/
theorem init_schedules_single_shot_transition (cfg : GIConfig) (cls : Nat)
    (hcls : cfg.LoadingScreenWidgetClass = some cls)
    (hok : cfg.createOk cls = true) :
    (GameInstanceInit (mkGameInstance cfg)).timers =
      [⟨TimerCallback.showMainMenu, cfg.LoadingScreenDuration, false⟩] ∧
    (∀ q : ℚ,
      TimerSpec.fires ⟨TimerCallback.showMainMenu, cfg.LoadingScreenDuration, false⟩ q ↔
        q = cfg.LoadingScreenDuration) := by
  constructor
  · cases hpc : cfg.hasPlayerController <;>
      simp [GameInstanceInit, mkGameInstance, hcls, hok, hpc]
  · intro q
    simp [TimerSpec.fires]

/-- Claim C4 witness: the sample configuration schedules the lone one-shot
2-second `ShowMainMenu` timer. -/
theorem init_schedules_single_shot_transition_witness :
    (GameInstanceInit (mkGameInstance c4cfg)).timers =
      [⟨TimerCallback.showMainMenu, c4cfg.LoadingScreenDuration, false⟩] ∧
    (∀ q : ℚ,
      TimerSpec.fires ⟨TimerCallback.showMainMenu, c4cfg.LoadingScreenDuration, false⟩ q ↔
        q = c4cfg.LoadingScreenDuration) :=
  init_schedules_single_shot_transition c4cfg 1 rfl rfl

/-- Claim C5: after the startup flow has shown the main menu, a second
`ShowMainMenu` call leaves a main-menu instance as the sole widget in the
viewport (tracked by `CurrentWidget`); and in the run in which no main-menu
class is configured — so the first call already left `CurrentWidget` null —
the second call returns the state completely unchanged, the null current
view being skipped rather than dereferenced. -/
theorem showMainMenu_second_call (lcls mcls : Nat) (dur : ℚ) (ok : Nat → Bool)
    (pc : Bool) (hl : ok lcls = true) (hm : ok mcls = true) :
    (∃ wid,
      (ShowMainMenu (ShowMainMenu (GameInstanceInit
        (mkGameInstance ⟨some lcls, some mcls, dur, ok, pc⟩)))).viewport =
          [(wid, mcls)] ∧
      (ShowMainMenu (ShowMainMenu (GameInstanceInit
        (mkGameInstance ⟨some lcls, some mcls, dur, ok, pc⟩)))).CurrentWidget =
          some wid) ∧
    ShowMainMenu (ShowMainMenu (GameInstanceInit
        (mkGameInstance ⟨some lcls, none, dur, ok, pc⟩))) =
      ShowMainMenu (GameInstanceInit (mkGameInstance ⟨some lcls, none, dur, ok, pc⟩)) := by
  constructor
  · refine ⟨2, ?_, ?_⟩ <;>
      cases hpc : pc <;>
        simp [GameInstanceInit, ShowMainMenu, mkGameInstance, hl, hm, hpc, List.filter]
  · cases hpc : pc <;>
      simp [GameInstanceInit, ShowMainMenu, mkGameInstance, hl, hpc, List.filter]

/-- Claim C5 witness: concrete run with loading class 1 and main-menu
class 2. -/
theorem showMainMenu_second_call_witness :
    (∃ wid,
      (ShowMainMenu (ShowMainMenu (GameInstanceInit
        (mkGameInstance ⟨some 1, some 2, 2, fun _ => true, true⟩)))).viewport =
          [(wid, 2)] ∧
      (ShowMainMenu (ShowMainMenu (GameInstanceInit
        (mkGameInstance ⟨some 1, some 2, 2, fun _ => true, true⟩)))).CurrentWidget =
          some wid) ∧
    ShowMainMenu (ShowMainMenu (GameInstanceInit
        (mkGameInstance ⟨some 1, none, 2, fun _ => true, true⟩))) =
      ShowMainMenu (GameInstanceInit (mkGameInstance ⟨some 1, none, 2, fun _ => true, true⟩)) :=
  showMainMenu_second_call 1 2 2 (fun _ => true) true rfl rfl

end ApexSim
